import Mathlib

/-!
Verification of the booking and search backend.

The development embeds two source modules:

* `Booking.model.ts` — the booking record type and its pre-save hook that
  derives `nights` and `guests.total` when they are absent;
* the search controller — `unifiedSearch` and `autocomplete`, which fan
  out regex-based queries over the homestay, guide and product
  collections and assemble a response envelope.

JavaScript-specific behaviour is modelled explicitly: optional numeric
fields are `Option Int` and the truthiness test `!x` on them is
`truthyNum`; the string method `trim` is `jsTrim`; `Math.ceil` of an
exact quotient of integers is `jsCeilDiv` (exact because every
millisecond difference representable as a JS date keeps the quotient far
enough from integers that the float rounding cannot cross one).
-/

/-! ## JavaScript primitives -/

/-- Truthiness of an optional JS number: `undefined`, `null` and `0` are
falsy, every other number is truthy. -/
def truthyNum : Option Int → Bool
  | some n => n != 0
  | none => false

/-- JS `x || d` for an optional number `x`: yields `d` when `x` is absent
or falsy. -/
def numOrDefault : Option Int → Int → Int
  | some n, d => if n != 0 then n else d
  | none, d => d

/-- `Math.ceil (a / b)` for integers with `0 < b`: the integer ceiling of
the exact quotient.  Lean's `Int` division rounds toward negative
infinity for a positive divisor, so the ceiling is `-((-a) / b)`. -/
def jsCeilDiv (a b : Int) : Int := -((-a) / b)

/-- JS `String.prototype.trim`: drop leading and trailing whitespace. -/
def jsTrim (s : String) : String :=
  ⟨((s.data.dropWhile Char.isWhitespace).reverse.dropWhile Char.isWhitespace).reverse⟩

theorem jsCeilDiv_eq_ceil (a : ℤ) (d : ℕ) :
    jsCeilDiv a d = ⌈(a : ℚ) / (d : ℚ)⌉ := by
  have h3 : ⌊(((-a : ℤ) : ℚ)) / ((d : ℕ) : ℚ)⌋ = (-a) / (d : ℤ) :=
    Rat.floor_intCast_div_natCast (-a) d
  have h4 : (((-a : ℤ) : ℚ)) / ((d : ℕ) : ℚ) = -((a : ℚ) / (d : ℚ)) := by
    push_cast
    ring
  have h2 : ⌊-((a : ℚ) / (d : ℚ))⌋ = -⌈(a : ℚ) / (d : ℚ)⌉ := Int.floor_neg
  rw [h4, h2] at h3
  unfold jsCeilDiv
  omega

theorem length_dropWhile_le (p : α → Bool) (l : List α) :
    (l.dropWhile p).length ≤ l.length := by
  induction l with
  | nil => simp [List.dropWhile]
  | cons a t ih =>
      by_cases h : p a
      · simp only [List.dropWhile_cons, h, if_true, List.length_cons]
        omega
      · simp [List.dropWhile_cons, h]

theorem jsTrim_length_le (s : String) : (jsTrim s).length ≤ s.length := by
  show (((s.data.dropWhile Char.isWhitespace).reverse.dropWhile
      Char.isWhitespace).reverse).length ≤ s.data.length
  rw [List.length_reverse]
  calc ((s.data.dropWhile Char.isWhitespace).reverse.dropWhile Char.isWhitespace).length
      ≤ (s.data.dropWhile Char.isWhitespace).reverse.length :=
        length_dropWhile_le _ _
    _ = (s.data.dropWhile Char.isWhitespace).length := List.length_reverse _
    _ ≤ s.data.length := length_dropWhile_le _ _

/-! ## Booking data model (`Booking.model.ts`) -/

/-- Guest count subdocument: `children` and `total` are optional. -/
structure GuestCount where
  adults : Int
  children : Option Int
  total : Option Int
deriving DecidableEq

/-- Guest contact details subdocument. -/
structure GuestDetails where
  name : String
  email : String
  phone : String
deriving DecidableEq

/-- Pricing subdocument. -/
structure BookingPricing where
  basePrice : Int
  cleaningFee : Option Int
  serviceFee : Option Int
  taxes : Option Int
  total : Int
deriving DecidableEq

/-- Type of the listing being booked. -/
inductive ListingType
  | homestay
  | guide
deriving DecidableEq

/-- Booking status lifecycle. -/
inductive BookingStatus
  | pending
  | confirmed
  | cancelled
  | completed
deriving DecidableEq

/-- Payment status of a booking. -/
inductive PaymentStatus
  | pending
  | completed
  | refunded
  | failed
deriving DecidableEq

/-- The booking record.  Dates are milliseconds since the epoch; a date or
numeric field that may be absent on the in-flight document is an
`Option`. -/
structure Booking where
  bookingNumber : String
  listingType : ListingType
  listingId : String
  listingTitle : Option String
  checkIn : Option Int
  checkOut : Option Int
  nights : Option Int
  guests : Option GuestCount
  guestDetails : GuestDetails
  specialRequests : Option String
  pricing : BookingPricing
  status : BookingStatus
  paymentStatus : PaymentStatus
deriving DecidableEq

/-- One day in milliseconds: `1000 * 60 * 60 * 24`. -/
def msPerDay : Int := 1000 * 60 * 60 * 24

/-- First statement of the pre-save hook: `if (!this.nights && this.checkIn
&& this.checkOut) { this.nights = Math.ceil((checkOut - checkIn) / msPerDay) }`.
A JS `Date` object is truthy, so the date conjuncts test presence. -/
def computeNights (b : Booking) : Booking :=
  if truthyNum b.nights = false then
    match b.checkIn, b.checkOut with
    | some ci, some co => { b with nights := some (jsCeilDiv (co - ci) msPerDay) }
    | _, _ => b
  else b

/-- Second statement of the pre-save hook: `if (this.guests &&
!this.guests.total) { this.guests.total = adults + (children || 0) }`. -/
def computeGuestTotal (b : Booking) : Booking :=
  match b.guests with
  | some g =>
      if truthyNum g.total = false then
        { b with guests := some { g with total := some (g.adults + numOrDefault g.children 0) } }
      else b
  | none => b

/-- The `bookingSchema.pre('save')` middleware: derive `nights`, then
derive `guests.total`. -/
def preSave (b : Booking) : Booking :=
  computeGuestTotal (computeNights b)

theorem computeGuestTotal_nights (b : Booking) :
    (computeGuestTotal b).nights = b.nights := by
  unfold computeGuestTotal
  cases b.guests with
  | none => rfl
  | some g =>
      by_cases h : truthyNum g.total = false <;> simp [h]

theorem computeNights_guests (b : Booking) :
    (computeNights b).guests = b.guests := by
  unfold computeNights
  by_cases h : truthyNum b.nights = false
  · simp only [h, if_true]
    cases hci : b.checkIn <;> cases hco : b.checkOut <;> rfl
  · simp [h]

/-! ## Booking pre-save theorems -/

/-- Sample contact details used by concrete bookings below. -/
def gdSample : GuestDetails :=
  { name := "Asha", email := "asha@example.com", phone := "9990001111" }

/-- Sample pricing used by concrete bookings below. -/
def bpSample : BookingPricing :=
  { basePrice := 100, cleaningFee := none, serviceFee := none, taxes := none, total := 100 }

/-- A booking whose `nights` and `guests.total` are explicitly supplied as
`0`: JS truthiness treats `0` as absent, so the hook recomputes both. -/
def zeroSuppliedBooking : Booking :=
  { bookingNumber := "BK1", listingType := .homestay, listingId := "L1",
    listingTitle := none, checkIn := some 0, checkOut := some 86400000,
    nights := some 0,
    guests := some { adults := 2, children := some 1, total := some 0 },
    guestDetails := gdSample, specialRequests := none, pricing := bpSample,
    status := .pending, paymentStatus := .pending }

/-- A booking whose `nights` and `guests.total` are supplied with nonzero
values. -/
def truthyBooking : Booking :=
  { bookingNumber := "BK2", listingType := .guide, listingId := "L2",
    listingTitle := none, checkIn := some 0, checkOut := some 259200000,
    nights := some 2,
    guests := some { adults := 2, children := some 1, total := some 5 },
    guestDetails := gdSample, specialRequests := none, pricing := bpSample,
    status := .pending, paymentStatus := .pending }

/-- A booking for 2024-01-01 through 2024-01-04 with `nights`,
`guests.children` and `guests.total` absent. -/
def janBooking : Booking :=
  { bookingNumber := "BK3", listingType := .homestay, listingId := "L3",
    listingTitle := none, checkIn := some 1704067200000,
    checkOut := some 1704326400000, nights := none,
    guests := some { adults := 2, children := none, total := none },
    guestDetails := gdSample, specialRequests := none, pricing := bpSample,
    status := .pending, paymentStatus := .pending }

/-- C1 (counterexample): a booking whose explicitly supplied `nights = 0`
and `guests.total = 0` are both overwritten by the pre-save computation,
because the hook tests JS truthiness, under which `0` counts as unset. -/
theorem preSave_overwrites_supplied_zero :
    zeroSuppliedBooking.nights = some 0 ∧
    (preSave zeroSuppliedBooking).nights = some 1 ∧
    zeroSuppliedBooking.guests.map GuestCount.total = some (some 0) ∧
    (preSave zeroSuppliedBooking).guests.map GuestCount.total = some (some 3) := by
  decide

/-- C1 (amended): the pre-save computation never overwrites an explicitly
supplied nonzero `nights`, and never overwrites an explicitly supplied
nonzero `guests.total` (indeed it leaves the whole guests subdocument
unchanged in that case). -/
theorem preSave_preserves_truthy (b : Booking) :
    (∀ n : Int, b.nights = some n → n ≠ 0 → (preSave b).nights = some n) ∧
    (∀ g : GuestCount, ∀ t : Int, b.guests = some g → g.total = some t → t ≠ 0 →
      (preSave b).guests = some g) := by
  constructor
  · intro n hn hnz
    have ht : truthyNum b.nights = true := by
      rw [hn]; simp [truthyNum, hnz]
    have hcn : computeNights b = b := by
      unfold computeNights
      rw [ht]
      simp
    unfold preSave
    rw [hcn, computeGuestTotal_nights, hn]
  · intro g t hg ht htz
    have htr : truthyNum g.total = true := by
      rw [ht]; simp [truthyNum, htz]
    unfold preSave computeGuestTotal
    rw [computeNights_guests, hg]
    simp [htr]
    rw [computeNights_guests, hg]

/-- C1 (witness): at a concrete booking with `nights = 2` and
`guests.total = 5` supplied, both survive the hook. -/
theorem preSave_preserves_truthy_witness :
    truthyBooking.nights = some 2 ∧
    (preSave truthyBooking).nights = some 2 ∧
    (preSave truthyBooking).guests =
      some { adults := 2, children := some 1, total := some 5 } :=
  ⟨rfl, (preSave_preserves_truthy truthyBooking).1 2 rfl (by decide),
    (preSave_preserves_truthy truthyBooking).2
      { adults := 2, children := some 1, total := some 5 } 5 rfl rfl (by decide)⟩

/-- C2: when `nights` is unset and both dates are set, the hook derives
`nights` as the integer ceiling of the millisecond difference divided by
86,400,000 — stated both as the embedded JS computation `jsCeilDiv` and
as the mathematical ceiling over ℚ. -/
theorem preSave_computes_nights (b : Booking) (ci co : Int)
    (h1 : b.nights = none) (h2 : b.checkIn = some ci) (h3 : b.checkOut = some co) :
    (preSave b).nights = some (jsCeilDiv (co - ci) msPerDay) ∧
    jsCeilDiv (co - ci) msPerDay = ⌈((co - ci : ℤ) : ℚ) / (86400000 : ℚ)⌉ := by
  constructor
  · unfold preSave
    rw [computeGuestTotal_nights]
    unfold computeNights
    rw [h1, h2, h3]
    simp [truthyNum]
  · have h := jsCeilDiv_eq_ceil (co - ci) 86400000
    have hd : ((86400000 : ℕ) : ℤ) = msPerDay := by norm_num [msPerDay]
    rw [← hd]
    rw [h]
    norm_num

/-- C2 (witness): for `checkIn = 2024-01-01` and `checkOut = 2024-01-04`
(epoch milliseconds 1704067200000 and 1704326400000) with `nights`
absent, the derived value is 3. -/
theorem preSave_computes_nights_witness :
    janBooking.nights = none ∧ (preSave janBooking).nights = some 3 :=
  ⟨rfl, ((preSave_computes_nights janBooking 1704067200000 1704326400000
      rfl rfl rfl).1).trans (by decide)⟩

/-- C9: when `guests.total` is unset the hook derives it as
`adults + (children or 0)`; in particular an absent `children` counts as
0, so the derived total is `adults`. -/
theorem preSave_computes_guest_total (b : Booking) (g : GuestCount)
    (hg : b.guests = some g) (ht : g.total = none) :
    (preSave b).guests =
      some { g with total := some (g.adults + numOrDefault g.children 0) } ∧
    (g.children = none →
      (preSave b).guests = some { g with total := some g.adults }) := by
  have hmain : (preSave b).guests =
      some { g with total := some (g.adults + numOrDefault g.children 0) } := by
    unfold preSave computeGuestTotal
    rw [computeNights_guests, hg]
    simp [truthyNum, ht]
  refine ⟨hmain, fun hc => ?_⟩
  rw [hmain, hc]
  simp [numOrDefault]

/-- C9 (witness): for `guests = { adults := 2 }` with `children` and
`total` absent, the derived total is 2. -/
theorem preSave_computes_guest_total_witness :
    (preSave janBooking).guests =
      some { adults := 2, children := none, total := some 2 } :=
  (preSave_computes_guest_total janBooking
    { adults := 2, children := none, total := none } rfl rfl).2 rfl

/-! ## Search controller data model -/

/-- The `type` query parameter of the search endpoint. -/
inductive SearchType
  | all
  | homestays
  | guides
  | products
deriving DecidableEq

/-- A stored homestay document, restricted to the fields the controller
touches.  `images` is optional, as `h.images?` in the source allows. -/
structure Homestay where
  id : String
  title : String
  description : String
  district : String
  address : String
  state : String
  status : String
  basePrice : Int
  images : Option (List String)
deriving DecidableEq

/-- A stored guide document, restricted to the fields the controller
touches. -/
structure Guide where
  id : String
  name : String
  bio : String
  specializations : List String
  district : String
  fullDay : Int
deriving DecidableEq

/-- A stored product document, restricted to the fields the controller
touches. -/
structure Product where
  id : String
  title : String
  description : String
  category : String
  priceAmount : Int
  images : Option (List String)
deriving DecidableEq

/-- The homestay search predicate: active status and the `$or` of the four
regex field matches.  `t` is the compiled case-insensitive regex test. -/
def homestayMatch (t : String → Bool) (h : Homestay) : Bool :=
  h.status == "active" && (t h.title || t h.description || t h.district || t h.address)

/-- The guide search predicate: `$or` over name, bio, specializations and
district. -/
def guideMatch (t : String → Bool) (g : Guide) : Bool :=
  t g.name || t g.bio || g.specializations.any t || t g.district

/-- The product search predicate: `$or` over title, description and
category. -/
def productMatch (t : String → Bool) (p : Product) : Bool :=
  t p.title || t p.description || t p.category

/-- A homestay search result item: the selected projection plus the
`type` tag and at most one representative image. -/
structure HomestayItem where
  id : String
  title : String
  description : String
  district : String
  state : String
  basePrice : Int
  images : List String
  type : String
deriving DecidableEq

/-- `{ ...h, type: 'homestay', images: h.images?.slice(0, 1) || [] }`. -/
def toHomestayItem (h : Homestay) : HomestayItem :=
  { id := h.id, title := h.title, description := h.description,
    district := h.district, state := h.state, basePrice := h.basePrice,
    images := (h.images.map (fun l => l.take 1)).getD [],
    type := "homestay" }

/-- A guide search result item. -/
structure GuideItem where
  id : String
  name : String
  bio : String
  specializations : List String
  fullDay : Int
  type : String
deriving DecidableEq

/-- `{ ...g, type: 'guide' }`. -/
def toGuideItem (g : Guide) : GuideItem :=
  { id := g.id, name := g.name, bio := g.bio,
    specializations := g.specializations, fullDay := g.fullDay,
    type := "guide" }

/-- A product search result item. -/
structure ProductItem where
  id : String
  title : String
  description : String
  category : String
  priceAmount : Int
  images : List String
  type : String
deriving DecidableEq

/-- `{ ...p, type: 'product', images: p.images?.slice(0, 1) || [] }`. -/
def toProductItem (p : Product) : ProductItem :=
  { id := p.id, title := p.title, description := p.description,
    category := p.category, priceAmount := p.priceAmount,
    images := (p.images.map (fun l => l.take 1)).getD [],
    type := "product" }

/-- The `total` object of the response: three per-type counts and their
sum. -/
structure SearchTotals where
  homestays : Nat
  guides : Nat
  products : Nat
  overall : Nat
deriving DecidableEq

/-- The `results` object of the response. -/
structure SearchResults where
  homestays : List HomestayItem
  guides : List GuideItem
  products : List ProductItem
  total : SearchTotals
deriving DecidableEq

/-- Modelled from the spec: `getPaginationMeta` lives in
`response.utils`, which is not among the source files; the spec says only
that pagination metadata is computed from `(page, limit, total)`, so the
model records exactly those three inputs. -/
structure PageMeta where
  page : Nat
  limit : Nat
  total : Nat
deriving DecidableEq

/-- The success payload of `GET /api/search`. -/
structure SearchEnvelope where
  results : SearchResults
  query : String
  pagination : PageMeta
deriving DecidableEq

/-- Assembly of the envelope from the six sub-query results, exactly as
lines 186-205 of the controller build it: `overall` is the sum of the
three counts. -/
def mkEnvelope (hs : List Homestay) (gs : List Guide) (ps : List Product)
    (hc gc pc : Nat) (page limit : Nat) (query : String) : SearchEnvelope :=
  { results :=
      { homestays := hs.map toHomestayItem,
        guides := gs.map toGuideItem,
        products := ps.map toProductItem,
        total := { homestays := hc, guides := gc, products := pc,
                   overall := hc + gc + pc } },
    query := query,
    pagination := { page := page, limit := limit, total := hc + gc + pc } }

/-- One autocomplete suggestion. -/
structure Suggestion where
  text : String
  type : String
  id : Option String
  count : Option Nat
deriving DecidableEq

/-- A grouped-district row: `{ _id: district, count }`. -/
def locationSuggestion (l : String × Nat) : Suggestion :=
  { text := l.1, type := "location", id := none, count := some l.2 }

/-- Suggestion built from a homestay row. -/
def homestaySuggestion (h : Homestay) : Suggestion :=
  { text := h.title, type := "homestay", id := some h.id, count := none }

/-- Suggestion built from a guide row. -/
def guideSuggestion (g : Guide) : Suggestion :=
  { text := g.name, type := "guide", id := some g.id, count := none }

/-- Suggestion built from a product row. -/
def productSuggestion (p : Product) : Suggestion :=
  { text := p.title, type := "product", id := some p.id, count := none }

/-- An HTTP response as produced through `sendSuccess` / `sendError`:
either a success payload or an error with message, HTTP status and
field-level errors. -/
inductive ApiResponse (α : Type) where
  | ok (payload : α)
  | error (message : String) (status : Nat) (fields : List (String × String))
deriving DecidableEq

/-- The field-level error attached to a too-short query term. -/
def validationFields : List (String × String) :=
  [("q", "Search query must be at least 2 characters")]

/-- The document-query layer the controller calls into.  Each operation is
fallible, mirroring a promise that may reject.  `findX pred skip limit`
is `X.find(pred).skip(skip).limit(limit)`, `countX pred` is
`X.countDocuments(pred)`, `acX pred limit` is the autocomplete-shaped
`X.find(pred).limit(limit)`, and `acDistricts t limit` is the
district-grouping aggregate pipeline. -/
structure DBOps where
  findHomestays : (Homestay → Bool) → Nat → Nat → Except Unit (List Homestay)
  findGuides : (Guide → Bool) → Nat → Nat → Except Unit (List Guide)
  findProducts : (Product → Bool) → Nat → Nat → Except Unit (List Product)
  countHomestays : (Homestay → Bool) → Except Unit Nat
  countGuides : (Guide → Bool) → Except Unit Nat
  countProducts : (Product → Bool) → Except Unit Nat
  acHomestays : (Homestay → Bool) → Nat → Except Unit (List Homestay)
  acGuides : (Guide → Bool) → Nat → Except Unit (List Guide)
  acProducts : (Product → Bool) → Nat → Except Unit (List Product)
  acDistricts : (String → Bool) → Nat → Except Unit (List (String × Nat))

/-- The fan-out of `unifiedSearch` after validation: three conditional
paginated fetches and three conditional counts (a skipped type
contributes `[]` or `0` without consulting the store), then the envelope
assembly.  All sub-results are combined only after every operation
completes; a rejection of any operation fails the whole computation, as
`Promise.all` does. -/
def unifiedSearchCore (ops : DBOps) (t : String → Bool) (type : SearchType)
    (page limit : Nat) (query : String) : Except Unit SearchEnvelope :=
  (if type = .all ∨ type = .homestays then
    ops.findHomestays (homestayMatch t) ((page - 1) * limit) limit
  else pure []) >>= fun hs =>
  (if type = .all ∨ type = .guides then
    ops.findGuides (guideMatch t) ((page - 1) * limit) limit
  else pure []) >>= fun gs =>
  (if type = .all ∨ type = .products then
    ops.findProducts (productMatch t) ((page - 1) * limit) limit
  else pure []) >>= fun ps =>
  (if type = .all ∨ type = .homestays then
    ops.countHomestays (homestayMatch t)
  else pure 0) >>= fun hc =>
  (if type = .all ∨ type = .guides then
    ops.countGuides (guideMatch t)
  else pure 0) >>= fun gc =>
  (if type = .all ∨ type = .products then
    ops.countProducts (productMatch t)
  else pure 0) >>= fun pc =>
  pure (mkEnvelope hs gs ps hc gc pc page limit query)

/-- `GET /api/search`: trim the raw term, reject when the trimmed term is
shorter than 2 characters, otherwise run the fan-out with the regex
compiled from the trimmed term; any failure is caught and surfaced as the
generic 500 response.  `regex q s` is `new RegExp(q, 'i').test(s)`. -/
def unifiedSearch (regex : String → String → Bool) (ops : DBOps) (rawQ : String)
    (type : SearchType) (page limit : Nat) : ApiResponse SearchEnvelope :=
  let query := jsTrim rawQ
  if query.length < 2 then
    .error "Validation failed" 400 validationFields
  else
    match unifiedSearchCore ops (regex query) type page limit query with
    | .ok env => .ok env
    | .error _ => .error "Failed to perform search" 500 []

/-- The fan-out of `autocomplete` after validation: four bounded queries,
then concatenation in the fixed order locations, homestays, guides,
products, truncated to the first 10 entries. -/
def autocompleteCore (ops : DBOps) (t : String → Bool) :
    Except Unit (List Suggestion) :=
  ops.acHomestays (fun h => h.status == "active" && t h.title) 3 >>= fun hs =>
  ops.acGuides (fun g => t g.name) 3 >>= fun gs =>
  ops.acProducts (fun p => t p.title) 3 >>= fun ps =>
  ops.acDistricts t 3 >>= fun locs =>
  pure ((locs.map locationSuggestion ++ hs.map homestaySuggestion ++
    gs.map guideSuggestion ++ ps.map productSuggestion).take 10)

/-- `GET /api/search/autocomplete`: trim, validate, fan out, catch. -/
def autocomplete (regex : String → String → Bool) (ops : DBOps)
    (rawQ : String) : ApiResponse (List Suggestion) :=
  let query := jsTrim rawQ
  if query.length < 2 then
    .error "Validation failed" 400 validationFields
  else
    match autocompleteCore ops (regex query) with
    | .ok s => .ok s
    | .error _ => .error "Failed to get suggestions" 500 []

/-! ## A concrete, never-failing store -/

/-- The three collections of the document store. -/
structure SearchDB where
  homestays : List Homestay
  guides : List Guide
  products : List Product

/-- One step of the `$group` stage: bump the count of an already-seen
district or append a new one. -/
def addDistrict (acc : List (String × Nat)) (d : String) : List (String × Nat) :=
  if acc.any (fun p => p.1 == d) then
    acc.map (fun p => if p.1 == d then (p.1, p.2 + 1) else p)
  else acc ++ [(d, 1)]

/-- Group a list of district names into distinct districts with
occurrence counts, in first-appearance order. -/
def groupDistricts (l : List String) : List (String × Nat) :=
  l.foldl addDistrict []

/-- The store over a concrete `SearchDB` in which every operation
succeeds: `find` filters, then skips, then takes; `count` is the length
of the filtered collection; the aggregate groups matching districts. -/
def pureOps (db : SearchDB) : DBOps :=
  { findHomestays := fun p skip lim => .ok (((db.homestays.filter p).drop skip).take lim),
    findGuides := fun p skip lim => .ok (((db.guides.filter p).drop skip).take lim),
    findProducts := fun p skip lim => .ok (((db.products.filter p).drop skip).take lim),
    countHomestays := fun p => .ok (db.homestays.filter p).length,
    countGuides := fun p => .ok (db.guides.filter p).length,
    countProducts := fun p => .ok (db.products.filter p).length,
    acHomestays := fun p lim => .ok ((db.homestays.filter p).take lim),
    acGuides := fun p lim => .ok ((db.guides.filter p).take lim),
    acProducts := fun p lim => .ok ((db.products.filter p).take lim),
    acDistricts := fun t lim =>
      .ok ((groupDistricts ((db.homestays.filter (fun h => t h.district)).map
        (fun h => h.district))).take lim) }

/-! ## Search theorems -/

theorem except_bind_ok {α β : Type} (x : Except Unit α) (f : α → Except Unit β)
    (v : β) (h : x >>= f = Except.ok v) :
    ∃ a, x = Except.ok a ∧ f a = Except.ok v := by
  cases x with
  | ok a => exact ⟨a, rfl, h⟩
  | error e => exact Except.noConfusion h

/-- Inversion of a successful fan-out: a success envelope is the assembly
of six sub-results, each produced by its (possibly skipped) sub-query. -/
theorem unifiedSearchCore_ok_inv (ops : DBOps) (t : String → Bool)
    (type : SearchType) (page limit : Nat) (query : String) (env : SearchEnvelope)
    (h : unifiedSearchCore ops t type page limit query = Except.ok env) :
    ∃ hs gs ps hc gc pc,
      (if type = .all ∨ type = .homestays then
        ops.findHomestays (homestayMatch t) ((page - 1) * limit) limit
      else pure []) = Except.ok hs ∧
      (if type = .all ∨ type = .guides then
        ops.findGuides (guideMatch t) ((page - 1) * limit) limit
      else pure []) = Except.ok gs ∧
      (if type = .all ∨ type = .products then
        ops.findProducts (productMatch t) ((page - 1) * limit) limit
      else pure []) = Except.ok ps ∧
      (if type = .all ∨ type = .homestays then
        ops.countHomestays (homestayMatch t)
      else pure 0) = Except.ok hc ∧
      (if type = .all ∨ type = .guides then
        ops.countGuides (guideMatch t)
      else pure 0) = Except.ok gc ∧
      (if type = .all ∨ type = .products then
        ops.countProducts (productMatch t)
      else pure 0) = Except.ok pc ∧
      env = mkEnvelope hs gs ps hc gc pc page limit query := by
  unfold unifiedSearchCore at h
  obtain ⟨hs, h1, h⟩ := except_bind_ok _ _ _ h
  obtain ⟨gs, h2, h⟩ := except_bind_ok _ _ _ h
  obtain ⟨ps, h3, h⟩ := except_bind_ok _ _ _ h
  obtain ⟨hc, h4, h⟩ := except_bind_ok _ _ _ h
  obtain ⟨gc, h5, h⟩ := except_bind_ok _ _ _ h
  obtain ⟨pc, h6, h⟩ := except_bind_ok _ _ _ h
  refine ⟨hs, gs, ps, hc, gc, pc, h1, h2, h3, h4, h5, h6, ?_⟩
  cases h
  rfl

/-- C4: whenever the search endpoint answers successfully, the `overall`
count in the envelope is the sum of the three per-type counts — for every
regex, store, term, type filter, page and limit. -/
theorem overall_eq_sum (regex : String → String → Bool) (ops : DBOps)
    (rawQ : String) (type : SearchType) (page limit : Nat) (env : SearchEnvelope)
    (h : unifiedSearch regex ops rawQ type page limit = ApiResponse.ok env) :
    env.results.total.overall =
      env.results.total.homestays + env.results.total.guides +
        env.results.total.products := by
  unfold unifiedSearch at h
  by_cases hv : (jsTrim rawQ).length < 2
  · rw [if_pos hv] at h
    exact ApiResponse.noConfusion h
  · rw [if_neg hv] at h
    cases hc : unifiedSearchCore ops (regex (jsTrim rawQ)) type page limit (jsTrim rawQ) with
    | ok env2 =>
        rw [hc] at h
        cases h
        obtain ⟨hs, gs, ps, hcn, gcn, pcn, _, _, _, _, _, _, he⟩ :=
          unifiedSearchCore_ok_inv _ _ _ _ _ _ _ hc
        subst he
        simp [mkEnvelope]
    | error e =>
        rw [hc] at h
        exact ApiResponse.noConfusion h

/-- C5: with a single-type filter, the two non-selected types contribute
empty item lists and zero counts, the overall count equals the selected
count alone, and the response does not depend on the non-selected types'
query operations at all (no query is issued for them). -/
theorem type_filter_isolates (regex : String → String → Bool) (ops : DBOps)
    (rawQ : String) (page limit : Nat) :
    (∀ env, unifiedSearch regex ops rawQ .homestays page limit = ApiResponse.ok env →
      env.results.guides = [] ∧ env.results.products = [] ∧
      env.results.total.guides = 0 ∧ env.results.total.products = 0 ∧
      env.results.total.overall = env.results.total.homestays) ∧
    (∀ env, unifiedSearch regex ops rawQ .guides page limit = ApiResponse.ok env →
      env.results.homestays = [] ∧ env.results.products = [] ∧
      env.results.total.homestays = 0 ∧ env.results.total.products = 0 ∧
      env.results.total.overall = env.results.total.guides) ∧
    (∀ env, unifiedSearch regex ops rawQ .products page limit = ApiResponse.ok env →
      env.results.homestays = [] ∧ env.results.guides = [] ∧
      env.results.total.homestays = 0 ∧ env.results.total.guides = 0 ∧
      env.results.total.overall = env.results.total.products) ∧
    (∀ fg cg fp cp, unifiedSearch regex
      { ops with findGuides := fg, countGuides := cg,
                 findProducts := fp, countProducts := cp }
      rawQ .homestays page limit = unifiedSearch regex ops rawQ .homestays page limit) ∧
    (∀ fh ch fp cp, unifiedSearch regex
      { ops with findHomestays := fh, countHomestays := ch,
                 findProducts := fp, countProducts := cp }
      rawQ .guides page limit = unifiedSearch regex ops rawQ .guides page limit) ∧
    (∀ fh ch fg cg, unifiedSearch regex
      { ops with findHomestays := fh, countHomestays := ch,
                 findGuides := fg, countGuides := cg }
      rawQ .products page limit = unifiedSearch regex ops rawQ .products page limit) := by
  refine ⟨?_, ?_, ?_, fun fg cg fp cp => rfl, fun fh ch fp cp => rfl,
    fun fh ch fg cg => rfl⟩
  · intro env h
    unfold unifiedSearch at h
    by_cases hv : (jsTrim rawQ).length < 2
    · rw [if_pos hv] at h
      exact ApiResponse.noConfusion h
    · rw [if_neg hv] at h
      generalize hcore : unifiedSearchCore ops (regex (jsTrim rawQ)) _ page limit
        (jsTrim rawQ) = r at h
      cases r with
      | error e => exact ApiResponse.noConfusion h
      | ok env2 =>
          cases h
          obtain ⟨hs, gs, ps, hcn, gcn, pcn, e1, e2, e3, e4, e5, e6, he⟩ :=
            unifiedSearchCore_ok_inv _ _ _ _ _ _ _ hcore
          subst he
          cases e2
          cases e3
          cases e5
          cases e6
          simp [mkEnvelope]
  · intro env h
    unfold unifiedSearch at h
    by_cases hv : (jsTrim rawQ).length < 2
    · rw [if_pos hv] at h
      exact ApiResponse.noConfusion h
    · rw [if_neg hv] at h
      generalize hcore : unifiedSearchCore ops (regex (jsTrim rawQ)) _ page limit
        (jsTrim rawQ) = r at h
      cases r with
      | error e => exact ApiResponse.noConfusion h
      | ok env2 =>
          cases h
          obtain ⟨hs, gs, ps, hcn, gcn, pcn, e1, e2, e3, e4, e5, e6, he⟩ :=
            unifiedSearchCore_ok_inv _ _ _ _ _ _ _ hcore
          subst he
          cases e1
          cases e3
          cases e4
          cases e6
          simp [mkEnvelope]
  · intro env h
    unfold unifiedSearch at h
    by_cases hv : (jsTrim rawQ).length < 2
    · rw [if_pos hv] at h
      exact ApiResponse.noConfusion h
    · rw [if_neg hv] at h
      generalize hcore : unifiedSearchCore ops (regex (jsTrim rawQ)) _ page limit
        (jsTrim rawQ) = r at h
      cases r with
      | error e => exact ApiResponse.noConfusion h
      | ok env2 =>
          cases h
          obtain ⟨hs, gs, ps, hcn, gcn, pcn, e1, e2, e3, e4, e5, e6, he⟩ :=
            unifiedSearchCore_ok_inv _ _ _ _ _ _ _ hcore
          subst he
          cases e1
          cases e2
          cases e4
          cases e5
          simp [mkEnvelope]

theorem length_map_take_le {α β : Type} (f : α → β) (l : List α) (n : Nat) :
    ((l.take n).map f).length ≤ n := by
  rw [List.length_map]
  exact List.length_take_le n l

/-- C6: a term whose length is below 2 is rejected by both endpoints with
the 400 validation error naming field `q`, for every type filter, page,
limit and store — the constant response for arbitrary stores shows no
query is issued. -/
theorem short_term_rejected (regex regex2 : String → String → Bool)
    (ops ops2 : DBOps) (rawQ : String) (type : SearchType) (page limit : Nat)
    (h : rawQ.length < 2) :
    unifiedSearch regex ops rawQ type page limit =
      ApiResponse.error "Validation failed" 400
        [("q", "Search query must be at least 2 characters")] ∧
    autocomplete regex2 ops2 rawQ =
      ApiResponse.error "Validation failed" 400
        [("q", "Search query must be at least 2 characters")] := by
  have ht : (jsTrim rawQ).length < 2 := lt_of_le_of_lt (jsTrim_length_le rawQ) h
  constructor
  · unfold unifiedSearch
    rw [if_pos ht]
    rfl
  · unfold autocomplete
    rw [if_pos ht]
    rfl

/-- C7: over a concrete store, every active type's item list is exactly
the filtered collection after `skip = (page - 1) * limit` and
`limit = limit`, applied independently per type, and every type's item
list has at most `limit` entries. -/
theorem pagination_per_type (regex : String → String → Bool) (db : SearchDB)
    (rawQ : String) (type : SearchType) (page limit : Nat)
    (h : 2 ≤ (jsTrim rawQ).length) :
    ∃ env, unifiedSearch regex (pureOps db) rawQ type page limit = ApiResponse.ok env ∧
      ((type = .all ∨ type = .homestays) →
        env.results.homestays =
          (((db.homestays.filter (homestayMatch (regex (jsTrim rawQ)))).drop
            ((page - 1) * limit)).take limit).map toHomestayItem) ∧
      ((type = .all ∨ type = .guides) →
        env.results.guides =
          (((db.guides.filter (guideMatch (regex (jsTrim rawQ)))).drop
            ((page - 1) * limit)).take limit).map toGuideItem) ∧
      ((type = .all ∨ type = .products) →
        env.results.products =
          (((db.products.filter (productMatch (regex (jsTrim rawQ)))).drop
            ((page - 1) * limit)).take limit).map toProductItem) ∧
      env.results.homestays.length ≤ limit ∧
      env.results.guides.length ≤ limit ∧
      env.results.products.length ≤ limit := by
  have hv : ¬(jsTrim rawQ).length < 2 := by omega
  cases type <;>
    refine ⟨_, by unfold unifiedSearch; rw [if_neg hv]; rfl, ?_, ?_, ?_, ?_, ?_, ?_⟩ <;>
    first
      | exact fun _ => rfl
      | (rintro (h' | h') <;> exact SearchType.noConfusion h')
      | exact length_map_take_le _ _ _
      | exact Nat.zero_le _

/-- The rows the district aggregate yields over a concrete store. -/
def acLocRows (db : SearchDB) (t : String → Bool) : List (String × Nat) :=
  (groupDistricts ((db.homestays.filter (fun h => t h.district)).map
    (fun h => h.district))).take 3

/-- The rows the bounded homestay-title query yields over a concrete
store. -/
def acHomestayRows (db : SearchDB) (t : String → Bool) : List Homestay :=
  (db.homestays.filter (fun h => h.status == "active" && t h.title)).take 3

/-- The rows the bounded guide-name query yields over a concrete store. -/
def acGuideRows (db : SearchDB) (t : String → Bool) : List Guide :=
  (db.guides.filter (fun g => t g.name)).take 3

/-- The rows the bounded product-title query yields over a concrete
store. -/
def acProductRows (db : SearchDB) (t : String → Bool) : List Product :=
  (db.products.filter (fun p => t p.title)).take 3

/-- C3: over a concrete store, a valid term yields exactly the
concatenation locations ++ homestays ++ guides ++ products truncated to
its first 10 entries, each category bounded by 3; and whenever the four
categories have 3 entries each, the truncation keeps everything except
the last two product entries and returns exactly 10 suggestions. -/
theorem autocomplete_order (regex : String → String → Bool) (db : SearchDB)
    (rawQ : String) (h : 2 ≤ (jsTrim rawQ).length) :
    autocomplete regex (pureOps db) rawQ =
      ApiResponse.ok
        (((acLocRows db (regex (jsTrim rawQ))).map locationSuggestion ++
          (acHomestayRows db (regex (jsTrim rawQ))).map homestaySuggestion ++
          (acGuideRows db (regex (jsTrim rawQ))).map guideSuggestion ++
          (acProductRows db (regex (jsTrim rawQ))).map productSuggestion).take 10) ∧
    (acLocRows db (regex (jsTrim rawQ))).length ≤ 3 ∧
    (acHomestayRows db (regex (jsTrim rawQ))).length ≤ 3 ∧
    (acGuideRows db (regex (jsTrim rawQ))).length ≤ 3 ∧
    (acProductRows db (regex (jsTrim rawQ))).length ≤ 3 ∧
    (∀ l1 l2 l3 l4 : List Suggestion,
      l1.length = 3 → l2.length = 3 → l3.length = 3 → l4.length = 3 →
      (l1 ++ l2 ++ l3 ++ l4).take 10 = l1 ++ l2 ++ l3 ++ l4.take 1 ∧
      ((l1 ++ l2 ++ l3 ++ l4).take 10).length = 10) := by
  have hv : ¬(jsTrim rawQ).length < 2 := by omega
  refine ⟨by unfold autocomplete; rw [if_neg hv]; rfl,
    List.length_take_le _ _, List.length_take_le _ _,
    List.length_take_le _ _, List.length_take_le _ _, ?_⟩
  intro l1 l2 l3 l4 h1 h2 h3 h4
  have e1 : l1.take 10 = l1 := List.take_of_length_le (by omega)
  have e2 : l2.take (10 - l1.length) = l2 := List.take_of_length_le (by omega)
  have e3 : l3.take (10 - (l1 ++ l2).length) = l3 :=
    List.take_of_length_le (by rw [List.length_append]; omega)
  have e4 : 10 - (l1 ++ l2 ++ l3).length = 1 := by
    rw [List.length_append, List.length_append]
    omega
  constructor
  · rw [List.take_append_eq_append_take, List.take_append_eq_append_take,
      List.take_append_eq_append_take, e1, e2, e3, e4]
  · rw [List.length_take, List.length_append, List.length_append,
      List.length_append, h1, h2, h3, h4]
    decide

/-- C8: once validation passes, a failure of the fan-out produces exactly
the generic 500 response with no field errors, for both endpoints; and
every error response after validation is that generic one — no partial
results and no other error shape can escape. -/
theorem subquery_failure_generic (regex : String → String → Bool) (ops : DBOps)
    (rawQ : String) (type : SearchType) (page limit : Nat)
    (h : 2 ≤ (jsTrim rawQ).length) :
    (∀ e, unifiedSearchCore ops (regex (jsTrim rawQ)) type page limit (jsTrim rawQ) =
        Except.error e →
      unifiedSearch regex ops rawQ type page limit =
        ApiResponse.error "Failed to perform search" 500 []) ∧
    (∀ m s f, unifiedSearch regex ops rawQ type page limit = ApiResponse.error m s f →
      m = "Failed to perform search" ∧ s = 500 ∧ f = ([] : List (String × String))) ∧
    (∀ e, autocompleteCore ops (regex (jsTrim rawQ)) = Except.error e →
      autocomplete regex ops rawQ =
        ApiResponse.error "Failed to get suggestions" 500 []) ∧
    (∀ m s f, autocomplete regex ops rawQ = ApiResponse.error m s f →
      m = "Failed to get suggestions" ∧ s = 500 ∧ f = ([] : List (String × String))) := by
  have hv : ¬(jsTrim rawQ).length < 2 := by omega
  refine ⟨?_, ?_, ?_, ?_⟩
  · intro e he
    unfold unifiedSearch
    rw [if_neg hv, he]
  · intro m s f hf
    unfold unifiedSearch at hf
    rw [if_neg hv] at hf
    generalize hcore : unifiedSearchCore ops (regex (jsTrim rawQ)) type page limit
      (jsTrim rawQ) = r at hf
    cases r with
    | ok env => exact ApiResponse.noConfusion hf
    | error e =>
        cases hf
        exact ⟨rfl, rfl, rfl⟩
  · intro e he
    unfold autocomplete
    rw [if_neg hv, he]
  · intro m s f hf
    unfold autocomplete at hf
    rw [if_neg hv] at hf
    generalize hcore : autocompleteCore ops (regex (jsTrim rawQ)) = r at hf
    cases r with
    | ok l => exact ApiResponse.noConfusion hf
    | error e =>
        cases hf
        exact ⟨rfl, rfl, rfl⟩

/-- C10: both endpoints trim the raw term before validating it, and an
accepted request uses the trimmed term everywhere: the echoed `query` is
the trimmed term, and every match predicate is the regex compiled from
the trimmed term.  A raw term that is whitespace-only — of any length —
is therefore rejected. -/
theorem trimmed_term_used (regex : String → String → Bool) (db : SearchDB)
    (rawQ : String) (page limit : Nat) :
    ((jsTrim rawQ).length < 2 →
      unifiedSearch regex (pureOps db) rawQ .all page limit =
        ApiResponse.error "Validation failed" 400
          [("q", "Search query must be at least 2 characters")] ∧
      autocomplete regex (pureOps db) rawQ =
        ApiResponse.error "Validation failed" 400
          [("q", "Search query must be at least 2 characters")]) ∧
    (2 ≤ (jsTrim rawQ).length →
      (∃ env, unifiedSearch regex (pureOps db) rawQ .all page limit =
          ApiResponse.ok env ∧
        env.query = jsTrim rawQ ∧
        env.results.homestays =
          (((db.homestays.filter (homestayMatch (regex (jsTrim rawQ)))).drop
            ((page - 1) * limit)).take limit).map toHomestayItem ∧
        env.results.guides =
          (((db.guides.filter (guideMatch (regex (jsTrim rawQ)))).drop
            ((page - 1) * limit)).take limit).map toGuideItem ∧
        env.results.products =
          (((db.products.filter (productMatch (regex (jsTrim rawQ)))).drop
            ((page - 1) * limit)).take limit).map toProductItem) ∧
      autocomplete regex (pureOps db) rawQ =
        ApiResponse.ok
          (((acLocRows db (regex (jsTrim rawQ))).map locationSuggestion ++
            (acHomestayRows db (regex (jsTrim rawQ))).map homestaySuggestion ++
            (acGuideRows db (regex (jsTrim rawQ))).map guideSuggestion ++
            (acProductRows db (regex (jsTrim rawQ))).map productSuggestion).take 10)) := by
  constructor
  · intro hlt
    constructor
    · unfold unifiedSearch
      rw [if_pos hlt]
      rfl
    · unfold autocomplete
      rw [if_pos hlt]
      rfl
  · intro h2
    have hv : ¬(jsTrim rawQ).length < 2 := by omega
    refine ⟨⟨_, by unfold unifiedSearch; rw [if_neg hv]; rfl, rfl, rfl, rfl, rfl⟩, ?_⟩
    unfold autocomplete
    rw [if_neg hv]
    rfl

/-! ## Concrete stores and witnesses -/

/-- A match-everything regex test, as `new RegExp` with a term every
field contains would behave. -/
def regexTrue : String → String → Bool := fun _ _ => true

/-- The empty store. -/
def emptyDB : SearchDB := { homestays := [], guides := [], products := [] }

/-- A store with three matching records in every category and three
distinct districts. -/
def db3 : SearchDB :=
  { homestays :=
      [ { id := "h1", title := "Hill View", description := "d1",
          district := "Ranchi", address := "a1", state := "JH",
          status := "active", basePrice := 10, images := none },
        { id := "h2", title := "Lake House", description := "d2",
          district := "Hazaribagh", address := "a2", state := "JH",
          status := "active", basePrice := 20, images := none },
        { id := "h3", title := "Forest Stay", description := "d3",
          district := "Netarhat", address := "a3", state := "JH",
          status := "active", basePrice := 30, images := none } ],
    guides :=
      [ { id := "g1", name := "Guide One", bio := "b1",
          specializations := [], district := "Ranchi", fullDay := 5 },
        { id := "g2", name := "Guide Two", bio := "b2",
          specializations := [], district := "Ranchi", fullDay := 6 },
        { id := "g3", name := "Guide Three", bio := "b3",
          specializations := [], district := "Ranchi", fullDay := 7 } ],
    products :=
      [ { id := "p1", title := "Prod One", description := "e1",
          category := "craft", priceAmount := 1, images := none },
        { id := "p2", title := "Prod Two", description := "e2",
          category := "craft", priceAmount := 2, images := none },
        { id := "p3", title := "Prod Three", description := "e3",
          category := "craft", priceAmount := 3, images := none } ] }

/-- The ten suggestions the full `db3` store produces: three locations,
three homestays, three guides, and only the first of the three
products. -/
def sugg10 : List Suggestion :=
  [ { text := "Ranchi", type := "location", id := none, count := some 1 },
    { text := "Hazaribagh", type := "location", id := none, count := some 1 },
    { text := "Netarhat", type := "location", id := none, count := some 1 },
    { text := "Hill View", type := "homestay", id := some "h1", count := none },
    { text := "Lake House", type := "homestay", id := some "h2", count := none },
    { text := "Forest Stay", type := "homestay", id := some "h3", count := none },
    { text := "Guide One", type := "guide", id := some "g1", count := none },
    { text := "Guide Two", type := "guide", id := some "g2", count := none },
    { text := "Guide Three", type := "guide", id := some "g3", count := none },
    { text := "Prod One", type := "product", id := some "p1", count := none } ]

/-- The i-th homestay of the seven-homestay store. -/
def homeN (i : Nat) : Homestay :=
  { id := "h", title := "Stay", description := "d", district := "Ranchi",
    address := "addr", state := "JH", status := "active",
    basePrice := (i : Int), images := none }

/-- A store with seven matching homestays, to exercise skip and limit. -/
def db7 : SearchDB :=
  { homestays := [homeN 1, homeN 2, homeN 3, homeN 4, homeN 5, homeN 6, homeN 7],
    guides := [], products := [] }

/-- The envelope the full search over `db3` produces. -/
def env3 : SearchEnvelope :=
  mkEnvelope db3.homestays db3.guides db3.products 3 3 3 1 10 "ab"

/-- The envelope the homestays-only search over `db3` produces. -/
def envH : SearchEnvelope :=
  mkEnvelope db3.homestays [] [] 3 0 0 1 10 "ab"

/-- The envelope page 2 with limit 5 over `db7` produces: records six and
seven. -/
def env7 : SearchEnvelope :=
  mkEnvelope [homeN 6, homeN 7] [] [] 7 0 0 2 5 "ab"

/-- A store whose product count query rejects while everything else
succeeds. -/
def failingOps : DBOps :=
  { pureOps db3 with countProducts := fun _ => Except.error () }

/-- A store whose autocomplete guide query rejects while everything else
succeeds. -/
def failingAcOps : DBOps :=
  { pureOps db3 with acGuides := fun _ _ => Except.error () }

/-- C3 (witness): over `db3`, where all four categories return their full
quota of 3, the endpoint returns exactly 10 suggestions — three
locations, then three homestays, then three guides, then one product;
the two trailing products are dropped. -/
theorem autocomplete_order_witness :
    autocomplete regexTrue (pureOps db3) "ab" = ApiResponse.ok sugg10 ∧
    sugg10.length = 10 :=
  ⟨((autocomplete_order regexTrue db3 "ab" (by decide)).1).trans (by decide),
    by decide⟩

/-- C4 (witness): the full search over `db3` answers with counts 3, 3, 3
and overall 9. -/
theorem overall_eq_sum_witness :
    unifiedSearch regexTrue (pureOps db3) "ab" .all 1 10 = ApiResponse.ok env3 ∧
    env3.results.total.overall =
      env3.results.total.homestays + env3.results.total.guides +
        env3.results.total.products :=
  ⟨by decide,
    overall_eq_sum regexTrue (pureOps db3) "ab" .all 1 10 env3 (by decide)⟩

/-- C5 (witness): the homestays-only search over `db3` returns empty
guide and product lists, zero guide and product counts, and an overall
count equal to the homestay count. -/
theorem type_filter_isolates_witness :
    unifiedSearch regexTrue (pureOps db3) "ab" .homestays 1 10 =
      ApiResponse.ok envH ∧
    (envH.results.guides = [] ∧ envH.results.products = [] ∧
      envH.results.total.guides = 0 ∧ envH.results.total.products = 0 ∧
      envH.results.total.overall = envH.results.total.homestays) :=
  ⟨by decide,
    (type_filter_isolates regexTrue (pureOps db3) "ab" 1 10).1 envH (by decide)⟩

/-- C6 (witness): the one-character term `a` is rejected by both
endpoints with the 400 validation error naming `q`. -/
theorem short_term_rejected_witness :
    ("a".length < 2) ∧
    unifiedSearch regexTrue (pureOps emptyDB) "a" .all 1 10 =
      ApiResponse.error "Validation failed" 400
        [("q", "Search query must be at least 2 characters")] ∧
    autocomplete regexTrue (pureOps emptyDB) "a" =
      ApiResponse.error "Validation failed" 400
        [("q", "Search query must be at least 2 characters")] := by
  have h := short_term_rejected regexTrue regexTrue (pureOps emptyDB)
    (pureOps emptyDB) "a" SearchType.all 1 10 (by decide)
  exact ⟨by decide, h.1, h.2⟩

/-- C7 (witness): page 2 with limit 5 over seven matching homestays skips
the first five records and returns records six and seven. -/
theorem pagination_per_type_witness :
    unifiedSearch regexTrue (pureOps db7) "ab" .all 2 5 = ApiResponse.ok env7 ∧
    env7.results.homestays = [toHomestayItem (homeN 6), toHomestayItem (homeN 7)] ∧
    env7.results.homestays.length ≤ 5 := by
  obtain ⟨env, hok, hh, _, _, hlen, _, _⟩ :=
    pagination_per_type regexTrue db7 "ab" SearchType.all 2 5 (by decide)
  have hok2 : unifiedSearch regexTrue (pureOps db7) "ab" SearchType.all 2 5 =
      ApiResponse.ok env7 := by decide
  rw [hok] at hok2
  injection hok2 with he
  subst he
  exact ⟨hok, (hh (Or.inl rfl)).trans (by decide), hlen⟩

/-- C8 (witness): with one rejecting sub-query among otherwise succeeding
ones, each endpoint returns only the generic 500 failure — no partial
results. -/
theorem subquery_failure_generic_witness :
    unifiedSearch regexTrue failingOps "ab" .all 1 10 =
      ApiResponse.error "Failed to perform search" 500 [] ∧
    autocomplete regexTrue failingAcOps "ab" =
      ApiResponse.error "Failed to get suggestions" 500 [] := by
  have h1 := subquery_failure_generic regexTrue failingOps "ab"
    SearchType.all 1 10 (by decide)
  have h2 := subquery_failure_generic regexTrue failingAcOps "ab"
    SearchType.all 1 10 (by decide)
  exact ⟨h1.1 () rfl, h2.2.2.1 () rfl⟩

/-- C10 (witness): the three-space raw term has length 3 but trims to
length 0, so both endpoints reject it even though the raw length passes
the threshold. -/
theorem trimmed_term_used_witness :
    ("   ".length = 3) ∧ ((jsTrim "   ").length = 0) ∧
    unifiedSearch regexTrue (pureOps db3) "   " .all 1 10 =
      ApiResponse.error "Validation failed" 400
        [("q", "Search query must be at least 2 characters")] ∧
    autocomplete regexTrue (pureOps db3) "   " =
      ApiResponse.error "Validation failed" 400
        [("q", "Search query must be at least 2 characters")] := by
  have h := (trimmed_term_used regexTrue db3 "   " 1 10).1 (by decide)
  exact ⟨by decide, by decide, h.1, h.2⟩
